import Mathlib

/-!
Shallow embedding of the `kholst` repository (exucutional/kholst):
a Slang shader-compiler adapter (`src/render/shader/compiler/compiler.{h,cpp}`)
and the windowed demo application (`src/main.cpp`).

The adapter is glue over the opaque Slang toolchain: every external call's
outcome (success flags, diagnostic-blob contents, produced byte blobs) is
modelled as a field of an environment record, and each C++ member function
becomes a pure Lean function from the environment and the explicit object
state to its results.  Out-parameters (`outSpirv`, `outErrorMsg`) are threaded
as explicit inputs and outputs so "left unchanged" is expressible.
-/

namespace Kholst

/-- The mutable state of a `SlangCompiler` object that the embedded code
reads or writes: the `initialized` flag and the `lastDiagnostics` string.
The Slang session handles are opaque and carry no observable data. -/
structure CompilerState where
  initialized : Bool
  lastDiagnostics : String
  deriving Repr, DecidableEq

/-- A freshly constructed `SlangCompiler` (member initializers in
`compiler.h`: `initialized = false`, empty diagnostics). -/
def SlangCompiler.new : CompilerState :=
  { initialized := false, lastDiagnostics := "" }

/-- `SlangCompiler::isInitialized` (compiler.h line 48). -/
def isInitialized (st : CompilerState) : Bool :=
  st.initialized

/-- `SlangCompiler::getLastDiagnostics` (compiler.cpp lines 310-313). -/
def getLastDiagnostics (st : CompilerState) : String :=
  st.lastDiagnostics

/-- Outcomes of the two external calls made by `SlangCompiler::initialize`:
`slang::createGlobalSession` and `IGlobalSession::createSession`. -/
structure InitEnv where
  createGlobalSessionOk : Bool
  createSessionOk : Bool
  deriving Repr, DecidableEq

/-- `SlangCompiler::initialize` (compiler.cpp lines 17-53). -/
def initializeCompiler (st : CompilerState) (env : InitEnv) : Bool × CompilerState :=
  if st.initialized then
    (true, st)
  else if !env.createGlobalSessionOk then
    (false, { st with lastDiagnostics := "Failed to create Slang global session" })
  else if !env.createSessionOk then
    (false, { st with lastDiagnostics := "Failed to create Slang session" })
  else
    (true, { st with initialized := true })

/-- The pipeline stage argument (`SlangStage`); only vertex and fragment are
used by this repository. -/
inductive SlangStage where
  | vertex
  | fragment
  | other
  deriving Repr, DecidableEq

/-- Outcomes of the external Slang calls made by one run of
`SlangCompiler::compileEntryPoint` (compiler.cpp lines 98-308):
whether the `ifstream` opens, whether `loadModule` returns a module and what
its diagnostics blob holds (`none` = null blob), likewise for
`findAndCheckEntryPoint`, `createCompositeComponentType`, `link`, and
`getEntryPointCode`, and the bytes of the produced code blob
(`none` = null `spirvCode`). -/
structure EntryPointEnv where
  fileOpens : Bool
  loadModuleOk : Bool
  loadDiagnostics : Option String
  findEntryPointOk : Bool
  findDiagnostics : Option String
  composeOk : Bool
  composeDiagnostics : Option String
  linkOk : Bool
  linkDiagnostics : Option String
  getCodeOk : Bool
  getCodeDiagnostics : Option String
  spirvBlob : Option (List Nat)
  deriving Repr, DecidableEq

/-- The five toolchain steps of `compileEntryPoint`, in source order.
Opening and reading the shader file belongs to the module-load step. -/
inductive Step where
  | loadModule
  | findEntryPoint
  | compose
  | link
  | getCode
  deriving Repr, DecidableEq

/-- Everything one run of `compileEntryPoint` produces: the return value, the
final `lastDiagnostics`, the final values of the out-parameters, the list of
toolchain steps that were executed, and the value `lastDiagnostics` held
right after each executed step. -/
structure EPResult where
  ok : Bool
  diags : String
  errMsg : String
  spirv : List Nat
  trace : List Step
  diagLog : List String
  deriving Repr, DecidableEq

/-- `memcpy` of `4 * n` bytes into an array of `n` 32-bit words on a
little-endian machine: consecutive groups of four bytes become one word. -/
def bytesToWords : List Nat → List Nat
  | b0 :: b1 :: b2 :: b3 :: rest =>
      (b0 + b1 * 256 + b2 * 65536 + b3 * 16777216) :: bytesToWords rest
  | _ => []

/-- `SlangCompiler::compileEntryPoint` (compiler.cpp lines 98-308).
`spirv0` and `errMsg0` are the values the out-parameters held at the call.
The function first clears `lastDiagnostics` (line 106); the load and
find-entry-point steps assign it from their diagnostics blob when the blob is
non-null (lines 127-133 and 146-152), the compose, link and get-code steps
append (lines 176-183, 198-205, 278-285).  The reflection printing block
(lines 214-265) only writes to stdout and is omitted. -/
def compileEntryPoint (env : EntryPointEnv) (shaderPath entryPoint : String)
    (spirv0 : List Nat) (errMsg0 : String) : EPResult :=
  let d0 : String := ""
  if !env.fileOpens then
    { ok := false, diags := d0,
      errMsg := "Failed to open shader file: " ++ shaderPath,
      spirv := spirv0, trace := [Step.loadModule], diagLog := [d0] }
  else
    -- lines 127-133: assigned from the blob when non-null, else keeps d0
    let d1 := env.loadDiagnostics.getD d0
    if !env.loadModuleOk then
      { ok := false, diags := d1,
        errMsg := "Failed to load module: " ++ shaderPath ++ "\n" ++ d1,
        spirv := spirv0, trace := [Step.loadModule], diagLog := [d1] }
    else
      -- lines 146-152: assigned from the blob when non-null, else keeps d1
      let d2 := env.findDiagnostics.getD d1
      if !env.findEntryPointOk then
        { ok := false, diags := d2,
          errMsg := "Failed to find entry point: " ++ entryPoint ++ " in "
            ++ shaderPath ++ "\n" ++ d2,
          spirv := spirv0, trace := [Step.loadModule, Step.findEntryPoint],
          diagLog := [d1, d2] }
      else
        let d3 := d2 ++ (env.composeDiagnostics.getD "")
        if !env.composeOk then
          { ok := false, diags := d3,
            errMsg := "Failed to compose program\n" ++ d3,
            spirv := spirv0,
            trace := [Step.loadModule, Step.findEntryPoint, Step.compose],
            diagLog := [d1, d2, d3] }
        else
          let d4 := d3 ++ (env.linkDiagnostics.getD "")
          if !env.linkOk then
            { ok := false, diags := d4,
              errMsg := "Failed to link program\n" ++ d4,
              spirv := spirv0,
              trace := [Step.loadModule, Step.findEntryPoint, Step.compose,
                Step.link],
              diagLog := [d1, d2, d3, d4] }
          else
            let d5 := d4 ++ (env.getCodeDiagnostics.getD "")
            match env.spirvBlob with
            | none =>
              { ok := false, diags := d5,
                errMsg := "Failed to get compiled code\n" ++ d5,
                spirv := spirv0,
                trace := [Step.loadModule, Step.findEntryPoint, Step.compose,
                  Step.link, Step.getCode],
                diagLog := [d1, d2, d3, d4, d5] }
            | some bytes =>
              if !env.getCodeOk then
                { ok := false, diags := d5,
                  errMsg := "Failed to get compiled code\n" ++ d5,
                  spirv := spirv0,
                  trace := [Step.loadModule, Step.findEntryPoint, Step.compose,
                    Step.link, Step.getCode],
                  diagLog := [d1, d2, d3, d4, d5] }
              else if bytes.length % 4 ≠ 0 then
                { ok := false, diags := d5,
                  errMsg := "Invalid SPIRV size (not multiple of 4 bytes)",
                  spirv := spirv0,
                  trace := [Step.loadModule, Step.findEntryPoint, Step.compose,
                    Step.link, Step.getCode],
                  diagLog := [d1, d2, d3, d4, d5] }
              else
                { ok := true, diags := d5, errMsg := errMsg0,
                  spirv := bytesToWords bytes,
                  trace := [Step.loadModule, Step.findEntryPoint, Step.compose,
                    Step.link, Step.getCode],
                  diagLog := [d1, d2, d3, d4, d5] }

/-- Result of `SlangCompiler::compileToSPIRV`: the boolean return, the updated
object state, and the final values of the two out-parameters. -/
structure CompileResult where
  ok : Bool
  state : CompilerState
  spirv : List Nat
  errMsg : String
  deriving Repr, DecidableEq

/-- `SlangCompiler::compileToSPIRV` (compiler.cpp lines 55-70). -/
def compileToSPIRV (st : CompilerState) (env : EntryPointEnv)
    (shaderPath entryPoint : String) (stage : SlangStage)
    (spirv0 : List Nat) (errMsg0 : String) : CompileResult :=
  if !st.initialized then
    { ok := false, state := st, spirv := spirv0,
      errMsg := "Compiler not initialized" }
  else
    let r := compileEntryPoint env shaderPath entryPoint spirv0 errMsg0
    { ok := r.ok, state := { st with lastDiagnostics := r.diags },
      spirv := r.spirv, errMsg := r.errMsg }

/-- Result of `SlangCompiler::compileVertexFragment`. -/
structure CompileVFResult where
  ok : Bool
  state : CompilerState
  vertSpirv : List Nat
  fragSpirv : List Nat
  errMsg : String
  deriving Repr, DecidableEq

/-- `SlangCompiler::compileVertexFragment` (compiler.cpp lines 72-96):
compile the vertex entry point, return on failure, then compile the fragment
entry point.  `envV` and `envF` are the toolchain outcomes of the two
`compileEntryPoint` runs. -/
def compileVertexFragment (st : CompilerState) (envV envF : EntryPointEnv)
    (shaderPath vertexEntry fragmentEntry : String)
    (vert0 frag0 : List Nat) (errMsg0 : String) : CompileVFResult :=
  if !st.initialized then
    { ok := false, state := st, vertSpirv := vert0, fragSpirv := frag0,
      errMsg := "Compiler not initialized" }
  else
    let rv := compileEntryPoint envV shaderPath vertexEntry vert0 errMsg0
    if !rv.ok then
      { ok := false, state := { st with lastDiagnostics := rv.diags },
        vertSpirv := rv.spirv, fragSpirv := frag0, errMsg := rv.errMsg }
    else
      let rf := compileEntryPoint envF shaderPath fragmentEntry frag0 rv.errMsg
      { ok := rf.ok, state := { st with lastDiagnostics := rf.diags },
        vertSpirv := rv.spirv, fragSpirv := rf.spirv, errMsg := rf.errMsg }

/-! Embedding of the application glue in `src/main.cpp`. -/

/-- Outcomes of the external calls of the `WindowApp` initialization path:
the compiler-initialization outcomes and the toolchain outcomes of the two
shader-compilation runs issued by `initRender`. -/
structure AppEnv where
  initEnv : InitEnv
  vertEnv : EntryPointEnv
  fragEnv : EntryPointEnv
  deriving Repr, DecidableEq

/-- What the `WindowApp` initialization path observably did: the compiler
state it left behind, whether an error was logged (`LLOGW`), and whether the
shader modules and the two render pipelines were created. -/
structure AppInitResult where
  compilerState : CompilerState
  loggedError : Bool
  shaderModulesCreated : Bool
  pipelinesCreated : Bool
  deriving Repr, DecidableEq

/-- Path of the shader file compiled at startup (`main.cpp` line 17). -/
def SLANG_CUBE_PATH : String := "src/shaders/cube.slang"

/-- `WindowApp::initRender` (main.cpp lines 37-86): compile the vertex and
fragment shaders from the cube file; on failure log and return before any
shader module or pipeline is created; on success create both shader modules
and both render pipelines. -/
def initRender (st : CompilerState) (env : AppEnv) : AppInitResult :=
  let r := compileVertexFragment st env.vertEnv env.fragEnv
    SLANG_CUBE_PATH "cubeVertex" "cubeFragment" [] [] ""
  if !r.ok then
    { compilerState := r.state, loggedError := true,
      shaderModulesCreated := false, pipelinesCreated := false }
  else
    { compilerState := r.state, loggedError := false,
      shaderModulesCreated := true, pipelinesCreated := true }

/-- The `WindowApp` constructor (main.cpp lines 22-35): initialize the Slang
compiler; on failure log and return without calling `initRender`; otherwise
run `initRender`. -/
def windowAppInit (env : AppEnv) : AppInitResult :=
  let st0 := SlangCompiler.new
  let r := initializeCompiler st0 env.initEnv
  if !r.1 then
    { compilerState := r.2, loggedError := true,
      shaderModulesCreated := false, pipelinesCreated := false }
  else
    initRender r.2 env

/-- The two render pipelines of `WindowApp`. -/
inductive Pipeline where
  | solid
  | wireframe
  deriving Repr, DecidableEq

/-- Commands the render loop records into the command buffer, over an opaque
matrix type `M` (the glm matrices are opaque values here). -/
inductive RenderCmd (M : Type) where
  | beginRendering
  | bindRenderPipeline (p : Pipeline)
  | pushConstants (mvp : M)
  | draw (vertexCount : Nat)
  | endRendering
  | submit
  deriving Repr, DecidableEq

/-- `CUBE_TRIANGLES` (main.cpp line 13). -/
def CUBE_TRIANGLES : Nat := 36

/-- One iteration of the `WindowApp::run` loop body (main.cpp lines 90-135),
given the polled framebuffer size and the two matrices the iteration
computes: `m` (model rotation from the current time) and `p` (perspective
projection).  `mul` is glm matrix multiplication, kept opaque.  A zero-sized
framebuffer makes the iteration `continue` without recording anything; both
draws push `p * m` recomputed at their own call site. -/
def frameCommands {M : Type} (mul : M → M → M) (width height : Nat)
    (p m : M) : List (RenderCmd M) :=
  if width = 0 || height = 0 then
    []
  else
    [RenderCmd.beginRendering,
     RenderCmd.bindRenderPipeline Pipeline.solid,
     RenderCmd.pushConstants (mul p m),
     RenderCmd.draw CUBE_TRIANGLES,
     RenderCmd.bindRenderPipeline Pipeline.wireframe,
     RenderCmd.pushConstants (mul p m),
     RenderCmd.draw CUBE_TRIANGLES,
     RenderCmd.endRendering,
     RenderCmd.submit]

/-! Derived values and spec-side comparison definitions. -/

/-- The five toolchain steps in source order. -/
def allSteps : List Step :=
  [Step.loadModule, Step.findEntryPoint, Step.compose, Step.link, Step.getCode]

/-- Value of `lastDiagnostics` right after the module-load step. -/
def dLoad (env : EntryPointEnv) : String :=
  env.loadDiagnostics.getD ""

/-- Value of `lastDiagnostics` right after the entry-point-resolution step. -/
def dFind (env : EntryPointEnv) : String :=
  env.findDiagnostics.getD (dLoad env)

/-- Value of `lastDiagnostics` right after the compose step. -/
def dCompose (env : EntryPointEnv) : String :=
  dFind env ++ env.composeDiagnostics.getD ""

/-- Value of `lastDiagnostics` right after the link step. -/
def dLink (env : EntryPointEnv) : String :=
  dCompose env ++ env.linkDiagnostics.getD ""

/-- Value of `lastDiagnostics` right after the code-extraction step. -/
def dCode (env : EntryPointEnv) : String :=
  dLink env ++ env.getCodeDiagnostics.getD ""

/-- The diagnostic text the external toolchain produced at each step
(`none` both for a null blob and for a call that never ran: when the shader
file does not open, `loadModule` is never invoked). -/
def stepDiag (env : EntryPointEnv) : Step → Option String
  | Step.loadModule => if env.fileOpens then env.loadDiagnostics else none
  | Step.findEntryPoint => env.findDiagnostics
  | Step.compose => env.composeDiagnostics
  | Step.link => env.linkDiagnostics
  | Step.getCode => env.getCodeDiagnostics

/-- Spec-side definition, following the claim's words: the steps executed in
order, stopping at the first failing step (a null code blob fails the
extraction step; the byte-size check happens after all five steps ran). -/
def claimedTrace (env : EntryPointEnv) : List Step :=
  if !(env.fileOpens && env.loadModuleOk) then
    [Step.loadModule]
  else if !env.findEntryPointOk then
    [Step.loadModule, Step.findEntryPoint]
  else if !env.composeOk then
    [Step.loadModule, Step.findEntryPoint, Step.compose]
  else if !env.linkOk then
    [Step.loadModule, Step.findEntryPoint, Step.compose, Step.link]
  else
    allSteps

/-- Spec-side definition, following the amended wording of the diagnostics
claim: the load and entry-point-resolution steps assign the diagnostics
string (resolution replacing load diagnostics), and the compose, link and
code-extraction steps append to it, stopping at the first failing step. -/
def accumulatedDiags (env : EntryPointEnv) : String :=
  if !env.fileOpens then ""
  else if !env.loadModuleOk then dLoad env
  else if !env.findEntryPointOk then dFind env
  else if !env.composeOk then dCompose env
  else if !env.linkOk then dLink env
  else dCode env

/-- Whether a recorded command is a draw call. -/
def RenderCmd.isDraw {M : Type} : RenderCmd M → Bool
  | RenderCmd.draw _ => true
  | _ => false

/-! Concrete sample inputs, used to evaluate the theorems on closed
instances. `envAllOk` is a run in which every toolchain call succeeds and the
code blob is the four bytes of the SPIR-V magic number. -/

/-- A compiler state after a successful `initialize`. -/
def stInit : CompilerState :=
  { initialized := true, lastDiagnostics := "" }

/-- Toolchain outcomes in which every step succeeds with no diagnostics. -/
def envAllOk : EntryPointEnv :=
  { fileOpens := true, loadModuleOk := true, loadDiagnostics := none,
    findEntryPointOk := true, findDiagnostics := none, composeOk := true,
    composeDiagnostics := none, linkOk := true, linkDiagnostics := none,
    getCodeOk := true, getCodeDiagnostics := none,
    spirvBlob := some [3, 2, 35, 7] }

/-- Toolchain outcomes in which the shader file fails to open. -/
def envNoOpen : EntryPointEnv :=
  { envAllOk with fileOpens := false }

/-- Toolchain outcomes in which every step succeeds but the code blob's size
is not a multiple of four bytes. -/
def envBadSize : EntryPointEnv :=
  { envAllOk with spirvBlob := some [1, 2, 3] }

/-- Toolchain outcomes in which both the load and the entry-point-resolution
steps produce warning diagnostics and everything succeeds. -/
def envTwoWarnings : EntryPointEnv :=
  { envAllOk with
    loadDiagnostics := some "warning: A\n",
    findDiagnostics := some "warning: B\n" }

/-- Application environment whose global-session creation fails. -/
def appEnvBadInit : AppEnv :=
  { initEnv := { createGlobalSessionOk := false, createSessionOk := false },
    vertEnv := envAllOk, fragEnv := envAllOk }

/-! Helper lemmas: one characterization per control-flow branch of
`compileEntryPoint`, and small string/list facts. -/

theorem append_ne_empty_left (s t : String) (h : s.length ≠ 0) : s ++ t ≠ "" := by
  intro hc
  have hl := congrArg String.length hc
  rw [String.length_append] at hl
  simp at hl
  omega

theorem bytesToWords_length : ∀ l : List Nat, (bytesToWords l).length = l.length / 4
  | [] => by simp [bytesToWords]
  | [_] => by simp [bytesToWords]
  | [_, _] => by simp [bytesToWords]
  | [_, _, _] => by simp [bytesToWords]
  | _ :: _ :: _ :: _ :: rest => by
      have ih := bytesToWords_length rest
      simp [bytesToWords, List.length]
      omega

theorem cep_noOpen (env : EntryPointEnv) (p e : String) (s0 : List Nat)
    (m0 : String) (h : env.fileOpens = false) :
    compileEntryPoint env p e s0 m0 =
      { ok := false, diags := "",
        errMsg := "Failed to open shader file: " ++ p,
        spirv := s0, trace := [Step.loadModule], diagLog := [""] } := by
  simp [compileEntryPoint, h]

theorem cep_loadFail (env : EntryPointEnv) (p e : String) (s0 : List Nat)
    (m0 : String) (h1 : env.fileOpens = true) (h2 : env.loadModuleOk = false) :
    compileEntryPoint env p e s0 m0 =
      { ok := false, diags := dLoad env,
        errMsg := "Failed to load module: " ++ p ++ "\n" ++ dLoad env,
        spirv := s0, trace := [Step.loadModule], diagLog := [dLoad env] } := by
  simp [compileEntryPoint, dLoad, h1, h2]

theorem cep_findFail (env : EntryPointEnv) (p e : String) (s0 : List Nat)
    (m0 : String) (h1 : env.fileOpens = true) (h2 : env.loadModuleOk = true)
    (h3 : env.findEntryPointOk = false) :
    compileEntryPoint env p e s0 m0 =
      { ok := false, diags := dFind env,
        errMsg := "Failed to find entry point: " ++ e ++ " in " ++ p ++ "\n"
          ++ dFind env,
        spirv := s0, trace := [Step.loadModule, Step.findEntryPoint],
        diagLog := [dLoad env, dFind env] } := by
  simp [compileEntryPoint, dLoad, dFind, h1, h2, h3]

theorem cep_composeFail (env : EntryPointEnv) (p e : String) (s0 : List Nat)
    (m0 : String) (h1 : env.fileOpens = true) (h2 : env.loadModuleOk = true)
    (h3 : env.findEntryPointOk = true) (h4 : env.composeOk = false) :
    compileEntryPoint env p e s0 m0 =
      { ok := false, diags := dCompose env,
        errMsg := "Failed to compose program\n" ++ dCompose env,
        spirv := s0,
        trace := [Step.loadModule, Step.findEntryPoint, Step.compose],
        diagLog := [dLoad env, dFind env, dCompose env] } := by
  simp [compileEntryPoint, dLoad, dFind, dCompose, h1, h2, h3, h4]

theorem cep_linkFail (env : EntryPointEnv) (p e : String) (s0 : List Nat)
    (m0 : String) (h1 : env.fileOpens = true) (h2 : env.loadModuleOk = true)
    (h3 : env.findEntryPointOk = true) (h4 : env.composeOk = true)
    (h5 : env.linkOk = false) :
    compileEntryPoint env p e s0 m0 =
      { ok := false, diags := dLink env,
        errMsg := "Failed to link program\n" ++ dLink env,
        spirv := s0,
        trace := [Step.loadModule, Step.findEntryPoint, Step.compose,
          Step.link],
        diagLog := [dLoad env, dFind env, dCompose env, dLink env] } := by
  simp [compileEntryPoint, dLoad, dFind, dCompose, dLink, h1, h2, h3, h4, h5]

theorem cep_codeFail (env : EntryPointEnv) (p e : String) (s0 : List Nat)
    (m0 : String) (h1 : env.fileOpens = true) (h2 : env.loadModuleOk = true)
    (h3 : env.findEntryPointOk = true) (h4 : env.composeOk = true)
    (h5 : env.linkOk = true)
    (h6 : env.getCodeOk = false ∨ env.spirvBlob = none) :
    compileEntryPoint env p e s0 m0 =
      { ok := false, diags := dCode env,
        errMsg := "Failed to get compiled code\n" ++ dCode env,
        spirv := s0, trace := allSteps,
        diagLog := [dLoad env, dFind env, dCompose env, dLink env,
          dCode env] } := by
  rcases h6 with h6 | h6
  · cases hb : env.spirvBlob <;>
      simp [compileEntryPoint, dLoad, dFind, dCompose, dLink, dCode, allSteps,
        h1, h2, h3, h4, h5, h6, hb]
  · simp [compileEntryPoint, dLoad, dFind, dCompose, dLink, dCode, allSteps,
      h1, h2, h3, h4, h5, h6]

theorem cep_sizeFail (env : EntryPointEnv) (p e : String) (s0 : List Nat)
    (m0 : String) (bytes : List Nat) (h1 : env.fileOpens = true)
    (h2 : env.loadModuleOk = true) (h3 : env.findEntryPointOk = true)
    (h4 : env.composeOk = true) (h5 : env.linkOk = true)
    (h6 : env.getCodeOk = true) (h7 : env.spirvBlob = some bytes)
    (h8 : bytes.length % 4 ≠ 0) :
    compileEntryPoint env p e s0 m0 =
      { ok := false, diags := dCode env,
        errMsg := "Invalid SPIRV size (not multiple of 4 bytes)",
        spirv := s0, trace := allSteps,
        diagLog := [dLoad env, dFind env, dCompose env, dLink env,
          dCode env] } := by
  simp [compileEntryPoint, dLoad, dFind, dCompose, dLink, dCode, allSteps,
    h1, h2, h3, h4, h5, h6, h7, h8]

theorem cep_success (env : EntryPointEnv) (p e : String) (s0 : List Nat)
    (m0 : String) (bytes : List Nat) (h1 : env.fileOpens = true)
    (h2 : env.loadModuleOk = true) (h3 : env.findEntryPointOk = true)
    (h4 : env.composeOk = true) (h5 : env.linkOk = true)
    (h6 : env.getCodeOk = true) (h7 : env.spirvBlob = some bytes)
    (h8 : bytes.length % 4 = 0) :
    compileEntryPoint env p e s0 m0 =
      { ok := true, diags := dCode env, errMsg := m0,
        spirv := bytesToWords bytes, trace := allSteps,
        diagLog := [dLoad env, dFind env, dCompose env, dLink env,
          dCode env] } := by
  simp [compileEntryPoint, dLoad, dFind, dCompose, dLink, dCode, allSteps,
    h1, h2, h3, h4, h5, h6, h7, h8]

theorem ne_empty_of_len (s : String) (h : s.length ≠ 0) : s ≠ "" := by
  intro hc
  rw [hc] at h
  simp at h

theorem append_len_pos (s t : String) (h : s.length ≠ 0) :
    (s ++ t).length ≠ 0 := by
  rw [String.length_append]
  omega

theorem cep_fail_msg (env : EntryPointEnv) (p e : String) (s0 : List Nat)
    (m0 : String) (h : (compileEntryPoint env p e s0 m0).ok = false) :
    (compileEntryPoint env p e s0 m0).errMsg ≠ "" := by
  cases h1 : env.fileOpens with
  | false =>
    rw [cep_noOpen env p e s0 m0 h1]
    exact ne_empty_of_len _ (append_len_pos _ _ (by decide))
  | true =>
    cases h2 : env.loadModuleOk with
    | false =>
      rw [cep_loadFail env p e s0 m0 h1 h2]
      exact ne_empty_of_len _
        (append_len_pos _ _ (append_len_pos _ _ (append_len_pos _ _ (by decide))))
    | true =>
      cases h3 : env.findEntryPointOk with
      | false =>
        rw [cep_findFail env p e s0 m0 h1 h2 h3]
        exact ne_empty_of_len _
          (append_len_pos _ _ (append_len_pos _ _ (append_len_pos _ _
            (append_len_pos _ _ (append_len_pos _ _ (by decide))))))
      | true =>
        cases h4 : env.composeOk with
        | false =>
          rw [cep_composeFail env p e s0 m0 h1 h2 h3 h4]
          exact ne_empty_of_len _ (append_len_pos _ _ (by decide))
        | true =>
          cases h5 : env.linkOk with
          | false =>
            rw [cep_linkFail env p e s0 m0 h1 h2 h3 h4 h5]
            exact ne_empty_of_len _ (append_len_pos _ _ (by decide))
          | true =>
            cases h6 : env.getCodeOk with
            | false =>
              rw [cep_codeFail env p e s0 m0 h1 h2 h3 h4 h5 (Or.inl h6)]
              exact ne_empty_of_len _ (append_len_pos _ _ (by decide))
            | true =>
              cases h7 : env.spirvBlob with
              | none =>
                rw [cep_codeFail env p e s0 m0 h1 h2 h3 h4 h5 (Or.inr h7)]
                exact ne_empty_of_len _ (append_len_pos _ _ (by decide))
              | some bytes =>
                by_cases h8 : bytes.length % 4 = 0
                · rw [cep_success env p e s0 m0 bytes h1 h2 h3 h4 h5 h6 h7 h8]
                    at h
                  simp at h
                · rw [cep_sizeFail env p e s0 m0 bytes h1 h2 h3 h4 h5 h6 h7 h8]
                  show "Invalid SPIRV size (not multiple of 4 bytes)" ≠ ""
                  decide

theorem cep_ok_inv (env : EntryPointEnv) (p e : String) (s0 : List Nat)
    (m0 : String) (h : (compileEntryPoint env p e s0 m0).ok = true) :
    ∃ bytes, env.spirvBlob = some bytes ∧ bytes.length % 4 = 0 ∧
      (compileEntryPoint env p e s0 m0).spirv = bytesToWords bytes ∧
      (compileEntryPoint env p e s0 m0).spirv.length = bytes.length / 4 := by
  cases h1 : env.fileOpens with
  | false => rw [cep_noOpen env p e s0 m0 h1] at h; simp at h
  | true =>
    cases h2 : env.loadModuleOk with
    | false => rw [cep_loadFail env p e s0 m0 h1 h2] at h; simp at h
    | true =>
      cases h3 : env.findEntryPointOk with
      | false => rw [cep_findFail env p e s0 m0 h1 h2 h3] at h; simp at h
      | true =>
        cases h4 : env.composeOk with
        | false => rw [cep_composeFail env p e s0 m0 h1 h2 h3 h4] at h; simp at h
        | true =>
          cases h5 : env.linkOk with
          | false =>
            rw [cep_linkFail env p e s0 m0 h1 h2 h3 h4 h5] at h; simp at h
          | true =>
            cases h6 : env.getCodeOk with
            | false =>
              rw [cep_codeFail env p e s0 m0 h1 h2 h3 h4 h5 (Or.inl h6)] at h
              simp at h
            | true =>
              cases h7 : env.spirvBlob with
              | none =>
                rw [cep_codeFail env p e s0 m0 h1 h2 h3 h4 h5 (Or.inr h7)] at h
                simp at h
              | some bytes =>
                by_cases h8 : bytes.length % 4 = 0
                · refine ⟨bytes, rfl, h8, ?_, ?_⟩ <;>
                    rw [cep_success env p e s0 m0 bytes h1 h2 h3 h4 h5 h6 h7 h8]
                  · simp [bytesToWords_length]
                · rw [cep_sizeFail env p e s0 m0 bytes h1 h2 h3 h4 h5 h6 h7 h8]
                    at h
                  simp at h

theorem cep_diags (env : EntryPointEnv) (p e : String) (s0 : List Nat)
    (m0 : String) :
    (compileEntryPoint env p e s0 m0).diags = accumulatedDiags env := by
  cases h1 : env.fileOpens with
  | false => rw [cep_noOpen env p e s0 m0 h1]; simp [accumulatedDiags, h1]
  | true =>
    cases h2 : env.loadModuleOk with
    | false =>
      rw [cep_loadFail env p e s0 m0 h1 h2]; simp [accumulatedDiags, h1, h2]
    | true =>
      cases h3 : env.findEntryPointOk with
      | false =>
        rw [cep_findFail env p e s0 m0 h1 h2 h3]
        simp [accumulatedDiags, h1, h2, h3]
      | true =>
        cases h4 : env.composeOk with
        | false =>
          rw [cep_composeFail env p e s0 m0 h1 h2 h3 h4]
          simp [accumulatedDiags, h1, h2, h3, h4]
        | true =>
          cases h5 : env.linkOk with
          | false =>
            rw [cep_linkFail env p e s0 m0 h1 h2 h3 h4 h5]
            simp [accumulatedDiags, h1, h2, h3, h4, h5]
          | true =>
            cases h6 : env.getCodeOk with
            | false =>
              rw [cep_codeFail env p e s0 m0 h1 h2 h3 h4 h5 (Or.inl h6)]
              simp [accumulatedDiags, h1, h2, h3, h4, h5]
            | true =>
              cases h7 : env.spirvBlob with
              | none =>
                rw [cep_codeFail env p e s0 m0 h1 h2 h3 h4 h5 (Or.inr h7)]
                simp [accumulatedDiags, h1, h2, h3, h4, h5]
              | some bytes =>
                by_cases h8 : bytes.length % 4 = 0
                · rw [cep_success env p e s0 m0 bytes h1 h2 h3 h4 h5 h6 h7 h8]
                  simp [accumulatedDiags, h1, h2, h3, h4, h5]
                · rw [cep_sizeFail env p e s0 m0 bytes h1 h2 h3 h4 h5 h6 h7 h8]
                  simp [accumulatedDiags, h1, h2, h3, h4, h5]

/-! Claim theorems. -/

/-- C8: every call to `compileToSPIRV` or `compileVertexFragment` on a
compiler on which `initialize` has not yet succeeded returns `false`, sets
the error message to "Compiler not initialized", and leaves the output
SPIR-V buffers and the compiler state unchanged. -/
theorem compile_before_initialize_fails (st : CompilerState)
    (envE envV envF : EntryPointEnv) (p e ev ef : String) (stage : SlangStage)
    (s0 v0 f0 : List Nat) (m0 : String) (h : st.initialized = false) :
    compileToSPIRV st envE p e stage s0 m0 =
      { ok := false, state := st, spirv := s0,
        errMsg := "Compiler not initialized" } ∧
    compileVertexFragment st envV envF p ev ef v0 f0 m0 =
      { ok := false, state := st, vertSpirv := v0, fragSpirv := f0,
        errMsg := "Compiler not initialized" } := by
  constructor <;> simp [compileToSPIRV, compileVertexFragment, h]

/-- Witness for C8: a freshly constructed compiler rejects compilation. -/
theorem compile_before_initialize_fails_witness :
    compileToSPIRV SlangCompiler.new envAllOk "cube.slang" "main"
        SlangStage.vertex [5] "old" =
      { ok := false, state := SlangCompiler.new, spirv := [5],
        errMsg := "Compiler not initialized" } ∧
    compileVertexFragment SlangCompiler.new envAllOk envAllOk "cube.slang"
        "cubeVertex" "cubeFragment" [1] [2] "old" =
      { ok := false, state := SlangCompiler.new, vertSpirv := [1],
        fragSpirv := [2], errMsg := "Compiler not initialized" } :=
  compile_before_initialize_fails SlangCompiler.new envAllOk envAllOk envAllOk
    "cube.slang" "main" "cubeVertex" "cubeFragment" SlangStage.vertex
    [5] [1] [2] "old" rfl

/-- C9: once `initialize` has returned `true`, any further call to
`initialize` returns `true` with the state unchanged, for every outcome of
the (never re-issued) session-creation calls, and `isInitialized` stays
`true`. -/
theorem initialize_idempotent (st0 : CompilerState) (e0 e1 : InitEnv)
    (h : (initializeCompiler st0 e0).1 = true) :
    initializeCompiler (initializeCompiler st0 e0).2 e1 =
      (true, (initializeCompiler st0 e0).2) ∧
    isInitialized (initializeCompiler st0 e0).2 = true := by
  have hinit : (initializeCompiler st0 e0).2.initialized = true := by
    cases hs : st0.initialized <;> cases hg : e0.createGlobalSessionOk <;>
      cases hc : e0.createSessionOk <;> simp_all [initializeCompiler]
  constructor
  · generalize (initializeCompiler st0 e0).2 = st1 at hinit ⊢
    simp [initializeCompiler, hinit]
  · simp [isInitialized, hinit]

/-- Witness for C9: after one successful initialization, a second call with
all-failing session creation still returns `true` without state change. -/
theorem initialize_idempotent_witness :
    initializeCompiler
        (initializeCompiler SlangCompiler.new
          { createGlobalSessionOk := true, createSessionOk := true }).2
        { createGlobalSessionOk := false, createSessionOk := false } =
      (true, (initializeCompiler SlangCompiler.new
        { createGlobalSessionOk := true, createSessionOk := true }).2) ∧
    isInitialized (initializeCompiler SlangCompiler.new
      { createGlobalSessionOk := true, createSessionOk := true }).2 = true :=
  initialize_idempotent SlangCompiler.new
    { createGlobalSessionOk := true, createSessionOk := true }
    { createGlobalSessionOk := false, createSessionOk := false } (by decide)

/-- C7: `compileVertexFragment` compiles the vertex entry point first and
short-circuits: when the vertex compilation fails it returns `false`, the
fragment output buffer is unchanged, and the result does not depend on the
fragment-stage toolchain outcomes at all (the fragment entry point is never
compiled). -/
theorem compileVertexFragment_short_circuits (st : CompilerState)
    (envV envF envF' : EntryPointEnv) (p ev ef : String) (v0 f0 : List Nat)
    (m0 : String) (hinit : st.initialized = true)
    (hfail : (compileEntryPoint envV p ev v0 m0).ok = false) :
    (compileVertexFragment st envV envF p ev ef v0 f0 m0).ok = false ∧
    (compileVertexFragment st envV envF p ev ef v0 f0 m0).fragSpirv = f0 ∧
    compileVertexFragment st envV envF p ev ef v0 f0 m0 =
      compileVertexFragment st envV envF' p ev ef v0 f0 m0 := by
  refine ⟨?_, ?_, ?_⟩ <;> simp [compileVertexFragment, hinit, hfail]

/-- Witness for C7: with a vertex stage whose shader file fails to open, the
fragment buffer keeps its prior contents and the fragment environment is
irrelevant. -/
theorem compileVertexFragment_short_circuits_witness :
    (compileVertexFragment stInit envNoOpen envAllOk "p" "v" "f"
      [] [9] "x").ok = false ∧
    (compileVertexFragment stInit envNoOpen envAllOk "p" "v" "f"
      [] [9] "x").fragSpirv = [9] ∧
    compileVertexFragment stInit envNoOpen envAllOk "p" "v" "f" [] [9] "x" =
      compileVertexFragment stInit envNoOpen envNoOpen "p" "v" "f"
        [] [9] "x" :=
  compileVertexFragment_short_circuits stInit envNoOpen envAllOk envNoOpen
    "p" "v" "f" [] [9] "x" rfl (by decide)

/-- C6: every render-loop iteration with a non-zero framebuffer size records
exactly two draws of 36 vertices: solid pipeline first, wireframe second,
both pushing the same matrix `p * m`. -/
theorem frame_renders_cube_twice {M : Type} (mul : M → M → M) (w h : Nat)
    (p m : M) (hw : w ≠ 0) (hh : h ≠ 0) :
    frameCommands mul w h p m =
      [RenderCmd.beginRendering,
       RenderCmd.bindRenderPipeline Pipeline.solid,
       RenderCmd.pushConstants (mul p m),
       RenderCmd.draw 36,
       RenderCmd.bindRenderPipeline Pipeline.wireframe,
       RenderCmd.pushConstants (mul p m),
       RenderCmd.draw 36,
       RenderCmd.endRendering,
       RenderCmd.submit] ∧
    ((frameCommands mul w h p m).filter RenderCmd.isDraw).length = 2 := by
  have hcond : (w = 0 || h = 0) = false := by simp [hw, hh]
  constructor
  · simp [frameCommands, CUBE_TRIANGLES, hcond]
  · simp [frameCommands, CUBE_TRIANGLES, hcond, RenderCmd.isDraw,
      List.filter]

/-- Witness for C6: a concrete frame at size 1680 × 720 with natural-number
stand-ins for the matrices. -/
theorem frame_renders_cube_twice_witness :
    frameCommands Nat.mul 1680 720 2 3 =
      [RenderCmd.beginRendering,
       RenderCmd.bindRenderPipeline Pipeline.solid,
       RenderCmd.pushConstants (Nat.mul 2 3),
       RenderCmd.draw 36,
       RenderCmd.bindRenderPipeline Pipeline.wireframe,
       RenderCmd.pushConstants (Nat.mul 2 3),
       RenderCmd.draw 36,
       RenderCmd.endRendering,
       RenderCmd.submit] ∧
    ((frameCommands Nat.mul 1680 720 2 3).filter RenderCmd.isDraw).length
      = 2 :=
  frame_renders_cube_twice Nat.mul 1680 720 2 3 (by decide) (by decide)

/-- C4: every failure of compiler initialization or of shader compilation in
the application initialization path is fatal: the application logs the error
and returns without creating the shader modules or the render pipelines. -/
theorem appInit_failure_is_fatal (env : AppEnv)
    (h : (initializeCompiler SlangCompiler.new env.initEnv).1 = false ∨
      (compileVertexFragment (initializeCompiler SlangCompiler.new
          env.initEnv).2 env.vertEnv env.fragEnv SLANG_CUBE_PATH "cubeVertex"
          "cubeFragment" [] [] "").ok = false) :
    (windowAppInit env).loggedError = true ∧
    (windowAppInit env).shaderModulesCreated = false ∧
    (windowAppInit env).pipelinesCreated = false := by
  rcases h with h | h
  · refine ⟨?_, ?_, ?_⟩ <;> simp [windowAppInit, h]
  · cases hi : (initializeCompiler SlangCompiler.new env.initEnv).1
    · refine ⟨?_, ?_, ?_⟩ <;> simp [windowAppInit, hi]
    · refine ⟨?_, ?_, ?_⟩ <;> simp [windowAppInit, initRender, hi, h]

/-- Witness for C4: when global-session creation fails, nothing is created
and the error is logged. -/
theorem appInit_failure_is_fatal_witness :
    (windowAppInit appEnvBadInit).loggedError = true ∧
    (windowAppInit appEnvBadInit).shaderModulesCreated = false ∧
    (windowAppInit appEnvBadInit).pipelinesCreated = false :=
  appInit_failure_is_fatal appEnvBadInit (Or.inl (by decide))

/-- C10: whenever `initialize`, `compileToSPIRV` or `compileVertexFragment`
returns `false`, the corresponding error string (`lastDiagnostics` for
`initialize`, `outErrorMsg` for the compile functions) is non-empty. -/
theorem failure_reports_nonempty_message (st : CompilerState) (ienv : InitEnv)
    (env envV envF : EntryPointEnv) (p e ev ef : String) (stage : SlangStage)
    (s0 v0 f0 : List Nat) (m0 : String) :
    ((initializeCompiler st ienv).1 = false →
      (initializeCompiler st ienv).2.lastDiagnostics ≠ "") ∧
    ((compileToSPIRV st env p e stage s0 m0).ok = false →
      (compileToSPIRV st env p e stage s0 m0).errMsg ≠ "") ∧
    ((compileVertexFragment st envV envF p ev ef v0 f0 m0).ok = false →
      (compileVertexFragment st envV envF p ev ef v0 f0 m0).errMsg ≠ "") := by
  refine ⟨?_, ?_, ?_⟩
  · intro h
    cases hs : st.initialized <;> cases hg : ienv.createGlobalSessionOk <;>
      cases hc : ienv.createSessionOk <;>
      simp_all [initializeCompiler]
  · intro h
    cases hsi : st.initialized
    · simp [compileToSPIRV, hsi]
    · have h' : (compileEntryPoint env p e s0 m0).ok = false := by
        simpa [compileToSPIRV, hsi] using h
      simpa [compileToSPIRV, hsi] using cep_fail_msg env p e s0 m0 h'
  · intro h
    cases hsi : st.initialized
    · simp [compileVertexFragment, hsi]
    · by_cases hv : (compileEntryPoint envV p ev v0 m0).ok = true
      · have h' : (compileEntryPoint envF p ef f0
            (compileEntryPoint envV p ev v0 m0).errMsg).ok = false := by
          simpa [compileVertexFragment, hsi, hv] using h
        simpa [compileVertexFragment, hsi, hv] using
          cep_fail_msg envF p ef f0 _ h'
      · have hv' : (compileEntryPoint envV p ev v0 m0).ok = false := by
          simpa using hv
        simpa [compileVertexFragment, hsi, hv'] using
          cep_fail_msg envV p ev v0 m0 hv'

/-- Witness for C10: the three failure messages on concrete failing runs. -/
theorem failure_reports_nonempty_message_witness :
    (initializeCompiler SlangCompiler.new
      { createGlobalSessionOk := false,
        createSessionOk := false }).2.lastDiagnostics ≠ "" ∧
    (compileToSPIRV SlangCompiler.new envNoOpen "p" "e" SlangStage.vertex
      [] "").errMsg ≠ "" ∧
    (compileVertexFragment stInit envNoOpen envAllOk "p" "v" "f"
      [] [] "").errMsg ≠ "" :=
  ⟨(failure_reports_nonempty_message SlangCompiler.new
      { createGlobalSessionOk := false, createSessionOk := false }
      envNoOpen envNoOpen envAllOk "p" "e" "v" "f" SlangStage.vertex
      [] [] [] "").1 (by decide),
   (failure_reports_nonempty_message SlangCompiler.new
      { createGlobalSessionOk := false, createSessionOk := false }
      envNoOpen envNoOpen envAllOk "p" "e" "v" "f" SlangStage.vertex
      [] [] [] "").2.1 (by decide),
   (failure_reports_nonempty_message stInit
      { createGlobalSessionOk := false, createSessionOk := false }
      envNoOpen envNoOpen envAllOk "p" "e" "v" "f" SlangStage.vertex
      [] [] [] "").2.2 (by decide)⟩

/-- C3: a call that returns `true` produced a blob whose byte size is a
multiple of four and filled the output vector with exactly `size / 4` words
copied from the blob (for `compileToSPIRV` and for both stages of
`compileVertexFragment`); and a blob whose size is not a multiple of four
makes the call fail with "Invalid SPIRV size (not multiple of 4 bytes)". -/
theorem spirv_word_size_invariant (st : CompilerState)
    (env envV envF : EntryPointEnv) (p e ev ef : String) (stage : SlangStage)
    (s0 v0 f0 : List Nat) (m0 : String) :
    ((compileToSPIRV st env p e stage s0 m0).ok = true →
      ∃ bytes, env.spirvBlob = some bytes ∧ bytes.length % 4 = 0 ∧
        (compileToSPIRV st env p e stage s0 m0).spirv = bytesToWords bytes ∧
        (compileToSPIRV st env p e stage s0 m0).spirv.length
          = bytes.length / 4) ∧
    ((compileVertexFragment st envV envF p ev ef v0 f0 m0).ok = true →
      (∃ bv, envV.spirvBlob = some bv ∧ bv.length % 4 = 0 ∧
        (compileVertexFragment st envV envF p ev ef v0 f0 m0).vertSpirv
          = bytesToWords bv ∧
        (compileVertexFragment st envV envF p ev ef v0 f0 m0).vertSpirv.length
          = bv.length / 4) ∧
      (∃ bf, envF.spirvBlob = some bf ∧ bf.length % 4 = 0 ∧
        (compileVertexFragment st envV envF p ev ef v0 f0 m0).fragSpirv
          = bytesToWords bf ∧
        (compileVertexFragment st envV envF p ev ef v0 f0 m0).fragSpirv.length
          = bf.length / 4)) ∧
    (∀ bytes, env.spirvBlob = some bytes → bytes.length % 4 ≠ 0 →
      env.fileOpens = true → env.loadModuleOk = true →
      env.findEntryPointOk = true → env.composeOk = true →
      env.linkOk = true → env.getCodeOk = true →
      (compileEntryPoint env p e s0 m0).ok = false ∧
      (compileEntryPoint env p e s0 m0).errMsg
        = "Invalid SPIRV size (not multiple of 4 bytes)") := by
  refine ⟨?_, ?_, ?_⟩
  · intro h
    cases hsi : st.initialized
    · simp [compileToSPIRV, hsi] at h
    · have h' : (compileEntryPoint env p e s0 m0).ok = true := by
        simpa [compileToSPIRV, hsi] using h
      obtain ⟨bytes, hb, hm, hs, hl⟩ := cep_ok_inv env p e s0 m0 h'
      exact ⟨bytes, hb, hm, by simpa [compileToSPIRV, hsi] using hs,
        by simpa [compileToSPIRV, hsi] using hl⟩
  · intro h
    cases hsi : st.initialized
    · simp [compileVertexFragment, hsi] at h
    · by_cases hv : (compileEntryPoint envV p ev v0 m0).ok = true
      · have hf : (compileEntryPoint envF p ef f0
            (compileEntryPoint envV p ev v0 m0).errMsg).ok = true := by
          simpa [compileVertexFragment, hsi, hv] using h
        obtain ⟨bv, hbv, hmv, hsv, hlv⟩ := cep_ok_inv envV p ev v0 m0 hv
        obtain ⟨bf, hbf, hmf, hsf, hlf⟩ := cep_ok_inv envF p ef f0 _ hf
        constructor
        · exact ⟨bv, hbv, hmv,
            by simpa [compileVertexFragment, hsi, hv] using hsv,
            by simpa [compileVertexFragment, hsi, hv] using hlv⟩
        · exact ⟨bf, hbf, hmf,
            by simpa [compileVertexFragment, hsi, hv] using hsf,
            by simpa [compileVertexFragment, hsi, hv] using hlf⟩
      · have hv' : (compileEntryPoint envV p ev v0 m0).ok = false := by
          simpa using hv
        simp [compileVertexFragment, hsi, hv'] at h
  · intro bytes hb hm h1 h2 h3 h4 h5 h6
    rw [cep_sizeFail env p e s0 m0 bytes h1 h2 h3 h4 h5 h6 hb hm]
    exact ⟨rfl, rfl⟩

/-- Witness for C3: an all-success run with a three-byte blob fails with the
invalid-size message, and an all-success run with a four-byte blob yields one
word. -/
theorem spirv_word_size_invariant_witness :
    ((compileEntryPoint envBadSize "p" "e" [] "").ok = false ∧
      (compileEntryPoint envBadSize "p" "e" [] "").errMsg
        = "Invalid SPIRV size (not multiple of 4 bytes)") ∧
    (∃ bytes, envAllOk.spirvBlob = some bytes ∧ bytes.length % 4 = 0 ∧
      (compileToSPIRV stInit envAllOk "p" "e" SlangStage.vertex [] "").spirv
        = bytesToWords bytes ∧
      (compileToSPIRV stInit envAllOk "p" "e" SlangStage.vertex
        [] "").spirv.length = bytes.length / 4) :=
  ⟨(spirv_word_size_invariant stInit envBadSize envAllOk envAllOk "p" "e"
      "v" "f" SlangStage.vertex [] [] [] "").2.2 [1, 2, 3] rfl (by decide)
      rfl rfl rfl rfl rfl rfl,
   (spirv_word_size_invariant stInit envAllOk envAllOk envAllOk "p" "e"
      "v" "f" SlangStage.vertex [] [] [] "").1 (by decide)⟩

/-- C5: the observable boundary of `compileVertexFragment`: a shader path and
two entry-point names in; on a `true` return the two output buffers hold the
two stages' binary code, on a `false` return a non-empty error string. -/
theorem compileVertexFragment_boundary (st : CompilerState)
    (envV envF : EntryPointEnv) (p ev ef : String) (v0 f0 : List Nat)
    (m0 : String) :
    ((compileVertexFragment st envV envF p ev ef v0 f0 m0).ok = true →
      (∃ bv, envV.spirvBlob = some bv ∧
        (compileVertexFragment st envV envF p ev ef v0 f0 m0).vertSpirv
          = bytesToWords bv) ∧
      (∃ bf, envF.spirvBlob = some bf ∧
        (compileVertexFragment st envV envF p ev ef v0 f0 m0).fragSpirv
          = bytesToWords bf)) ∧
    ((compileVertexFragment st envV envF p ev ef v0 f0 m0).ok = false →
      (compileVertexFragment st envV envF p ev ef v0 f0 m0).errMsg ≠ "") := by
  constructor
  · intro h
    cases hsi : st.initialized
    · simp [compileVertexFragment, hsi] at h
    · by_cases hv : (compileEntryPoint envV p ev v0 m0).ok = true
      · have hf : (compileEntryPoint envF p ef f0
            (compileEntryPoint envV p ev v0 m0).errMsg).ok = true := by
          simpa [compileVertexFragment, hsi, hv] using h
        obtain ⟨bv, hbv, _, hsv, _⟩ := cep_ok_inv envV p ev v0 m0 hv
        obtain ⟨bf, hbf, _, hsf, _⟩ := cep_ok_inv envF p ef f0 _ hf
        exact ⟨⟨bv, hbv, by simpa [compileVertexFragment, hsi, hv] using hsv⟩,
          ⟨bf, hbf, by simpa [compileVertexFragment, hsi, hv] using hsf⟩⟩
      · have hv' : (compileEntryPoint envV p ev v0 m0).ok = false := by
          simpa using hv
        simp [compileVertexFragment, hsi, hv'] at h
  · intro h
    cases hsi : st.initialized
    · simp [compileVertexFragment, hsi]
    · by_cases hv : (compileEntryPoint envV p ev v0 m0).ok = true
      · have h' : (compileEntryPoint envF p ef f0
            (compileEntryPoint envV p ev v0 m0).errMsg).ok = false := by
          simpa [compileVertexFragment, hsi, hv] using h
        simpa [compileVertexFragment, hsi, hv] using
          cep_fail_msg envF p ef f0 _ h'
      · have hv' : (compileEntryPoint envV p ev v0 m0).ok = false := by
          simpa using hv
        simpa [compileVertexFragment, hsi, hv'] using
          cep_fail_msg envV p ev v0 m0 hv'

/-- Witness for C5: a fully successful concrete compilation returns the two
decoded word buffers. -/
theorem compileVertexFragment_boundary_witness :
    (∃ bv, envAllOk.spirvBlob = some bv ∧
      (compileVertexFragment stInit envAllOk envAllOk "p" "v" "f"
        [] [] "").vertSpirv = bytesToWords bv) ∧
    (∃ bf, envAllOk.spirvBlob = some bf ∧
      (compileVertexFragment stInit envAllOk envAllOk "p" "v" "f"
        [] [] "").fragSpirv = bytesToWords bf) :=
  (compileVertexFragment_boundary stInit envAllOk envAllOk "p" "v" "f"
    [] [] "").1 (by decide)

/-- Counterexample for C2 as stated: with warnings from both the load and
the entry-point-resolution steps, the final diagnostics string holds only the
resolution step's text — the load step's diagnostics were overwritten, not
appended to. -/
theorem diagnostics_append_counterexample :
    envTwoWarnings.loadDiagnostics = some "warning: A\n" ∧
    envTwoWarnings.findDiagnostics = some "warning: B\n" ∧
    (compileToSPIRV stInit envTwoWarnings "cube.slang" "main"
      SlangStage.vertex [] "").ok = true ∧
    getLastDiagnostics (compileToSPIRV stInit envTwoWarnings "cube.slang"
      "main" SlangStage.vertex [] "").state = "warning: B\n" ∧
    getLastDiagnostics (compileToSPIRV stInit envTwoWarnings "cube.slang"
      "main" SlangStage.vertex [] "").state
      ≠ "warning: A\nwarning: B\n" := by
  refine ⟨rfl, rfl, rfl, rfl, ?_⟩
  decide

/-- C2 (amended): errors are reported as a `false` return plus a diagnostic
string; within one `compileEntryPoint` run the load and entry-point
resolution steps assign the diagnostics string (resolution replacing any
load diagnostics) while the compose, link and code-extraction steps append
to it, and `getLastDiagnostics` returns the resulting string. -/
theorem compile_diagnostics_accumulation (st : CompilerState)
    (env : EntryPointEnv) (p e : String) (stage : SlangStage) (s0 : List Nat)
    (m0 : String) (h : st.initialized = true) :
    getLastDiagnostics (compileToSPIRV st env p e stage s0 m0).state
      = accumulatedDiags env ∧
    ((compileToSPIRV st env p e stage s0 m0).ok = false →
      (compileToSPIRV st env p e stage s0 m0).errMsg ≠ "") := by
  constructor
  · simp [compileToSPIRV, h, getLastDiagnostics, cep_diags]
  · intro hf
    have h' : (compileEntryPoint env p e s0 m0).ok = false := by
      simpa [compileToSPIRV, h] using hf
    simpa [compileToSPIRV, h] using cep_fail_msg env p e s0 m0 h'

/-- Witness for C2 (amended): the accumulation law evaluated on the
two-warnings run. -/
theorem compile_diagnostics_accumulation_witness :
    getLastDiagnostics (compileToSPIRV stInit envTwoWarnings "c" "m"
      SlangStage.vertex [] "").state = accumulatedDiags envTwoWarnings ∧
    ((compileToSPIRV stInit envTwoWarnings "c" "m" SlangStage.vertex
      [] "").ok = false →
      (compileToSPIRV stInit envTwoWarnings "c" "m" SlangStage.vertex
        [] "").errMsg ≠ "") :=
  compile_diagnostics_accumulation stInit envTwoWarnings "c" "m"
    SlangStage.vertex [] "" rfl

/-- C1: `compileEntryPoint` performs the load, entry-point-resolution,
compose, link and code-extraction steps in exactly this order, stopping at
the first failing step; each executed step logged one diagnostics value, the
last logged value is the final `lastDiagnostics`, and whatever diagnostic
text a step produced appears (as a suffix) in the diagnostics string right
after that step. -/
theorem compileEntryPoint_steps_in_order (env : EntryPointEnv) (p e : String)
    (s0 : List Nat) (m0 : String) :
    (compileEntryPoint env p e s0 m0).trace = claimedTrace env ∧
    (compileEntryPoint env p e s0 m0).diagLog.length
      = (compileEntryPoint env p e s0 m0).trace.length ∧
    (compileEntryPoint env p e s0 m0).diagLog.getLastD ""
      = (compileEntryPoint env p e s0 m0).diags ∧
    ∀ pr ∈ (compileEntryPoint env p e s0 m0).trace.zip
        (compileEntryPoint env p e s0 m0).diagLog,
      ∀ d, stepDiag env pr.1 = some d → ∃ pre, pr.2 = pre ++ d := by
  cases h1 : env.fileOpens with
  | false =>
    rw [cep_noOpen env p e s0 m0 h1]
    refine ⟨by simp [claimedTrace, h1], rfl, rfl, ?_⟩
    intro pr hpr d hd
    simp [List.zip_cons_cons] at hpr
    rcases hpr with rfl
    simp [stepDiag, h1] at hd
  | true =>
    cases h2 : env.loadModuleOk with
    | false =>
      rw [cep_loadFail env p e s0 m0 h1 h2]
      refine ⟨by simp [claimedTrace, h1, h2], rfl, rfl, ?_⟩
      intro pr hpr d hd
      simp [List.zip_cons_cons] at hpr
      rcases hpr with rfl
      simp [stepDiag, h1] at hd
      exact ⟨"", by simp [dLoad, hd]⟩
    | true =>
      cases h3 : env.findEntryPointOk with
      | false =>
        rw [cep_findFail env p e s0 m0 h1 h2 h3]
        refine ⟨by simp [claimedTrace, h1, h2, h3], rfl, rfl, ?_⟩
        intro pr hpr d hd
        simp [List.zip_cons_cons] at hpr
        rcases hpr with rfl | rfl <;> simp [stepDiag, h1] at hd
        · exact ⟨"", by simp [dLoad, hd]⟩
        · exact ⟨"", by simp [dFind, hd]⟩
      | true =>
        cases h4 : env.composeOk with
        | false =>
          rw [cep_composeFail env p e s0 m0 h1 h2 h3 h4]
          refine ⟨by simp [claimedTrace, h1, h2, h3, h4], rfl, rfl, ?_⟩
          intro pr hpr d hd
          simp [List.zip_cons_cons] at hpr
          rcases hpr with rfl | rfl | rfl <;> simp [stepDiag, h1] at hd
          · exact ⟨"", by simp [dLoad, hd]⟩
          · exact ⟨"", by simp [dFind, hd]⟩
          · exact ⟨dFind env, by simp [dCompose, hd]⟩
        | true =>
          cases h5 : env.linkOk with
          | false =>
            rw [cep_linkFail env p e s0 m0 h1 h2 h3 h4 h5]
            refine ⟨by simp [claimedTrace, h1, h2, h3, h4, h5], rfl, rfl, ?_⟩
            intro pr hpr d hd
            simp [List.zip_cons_cons] at hpr
            rcases hpr with rfl | rfl | rfl | rfl <;>
              simp [stepDiag, h1] at hd
            · exact ⟨"", by simp [dLoad, hd]⟩
            · exact ⟨"", by simp [dFind, hd]⟩
            · exact ⟨dFind env, by simp [dCompose, hd]⟩
            · exact ⟨dCompose env, by simp [dLink, hd]⟩
          | true =>
            have hcap : ∀ pr ∈ allSteps.zip [dLoad env, dFind env,
                dCompose env, dLink env, dCode env],
                ∀ d, stepDiag env pr.1 = some d → ∃ pre, pr.2 = pre ++ d := by
              intro pr hpr d hd
              simp [allSteps, List.zip_cons_cons] at hpr
              rcases hpr with rfl | rfl | rfl | rfl | rfl <;>
                simp [stepDiag, h1] at hd
              · exact ⟨"", by simp [dLoad, hd]⟩
              · exact ⟨"", by simp [dFind, hd]⟩
              · exact ⟨dFind env, by simp [dCompose, hd]⟩
              · exact ⟨dCompose env, by simp [dLink, hd]⟩
              · exact ⟨dLink env, by simp [dCode, hd]⟩
            have htr : claimedTrace env = allSteps := by
              simp [claimedTrace, h1, h2, h3, h4, h5]
            cases h6 : env.getCodeOk with
            | false =>
              rw [cep_codeFail env p e s0 m0 h1 h2 h3 h4 h5 (Or.inl h6), htr]
              exact ⟨rfl, rfl, rfl, hcap⟩
            | true =>
              cases h7 : env.spirvBlob with
              | none =>
                rw [cep_codeFail env p e s0 m0 h1 h2 h3 h4 h5 (Or.inr h7),
                  htr]
                exact ⟨rfl, rfl, rfl, hcap⟩
              | some bytes =>
                by_cases h8 : bytes.length % 4 = 0
                · rw [cep_success env p e s0 m0 bytes h1 h2 h3 h4 h5 h6 h7 h8,
                    htr]
                  exact ⟨rfl, rfl, rfl, hcap⟩
                · rw [cep_sizeFail env p e s0 m0 bytes h1 h2 h3 h4 h5 h6 h7
                    h8, htr]
                  exact ⟨rfl, rfl, rfl, hcap⟩

/-- Witness for C1: the step trace of the two-warnings run matches the
claimed step order. -/
theorem compileEntryPoint_steps_in_order_witness :
    (compileEntryPoint envTwoWarnings "c" "m" [] "").trace
      = claimedTrace envTwoWarnings :=
  (compileEntryPoint_steps_in_order envTwoWarnings "c" "m" [] "").1

end Kholst
